import Mathlib

/-!
Verification of the rate-limiting and token-authentication logic of the
portfolio backend.  The rate limiter is embedded from `src/lib/rateLimit.ts`
(`checkRateLimit`, `getClientIdentifier`, `RATE_LIMITS`); the token helpers
are embedded from the auth library (`generateToken`, `verifyToken`,
`getTokenFromRequest`, `requireAuth`).  JavaScript's implicit behaviours that
matter here are made explicit: header lookup returns `Option String`
(`null` = `none`), string truthiness (`null` and `""` are falsy) is
`jsTruthy`, the `||` default operator on strings is `jsOrString`, and the
mutable module-level store is threaded as explicit state.
Times are in milliseconds (as from `Date.now()`), modelled as `Int`;
JavaScript numbers carry integral values everywhere these functions are
used, and can be negative, so counters and limits are `Int` as well.
-/

/-- The subset of request headers the embedded functions read.  A field is
`none` when the header is absent; an empty string is a present-but-empty
header. -/
structure Headers where
  xForwardedFor : Option String := none
  xRealIp : Option String := none
  userAgent : Option String := none
  authorization : Option String := none

/-- JavaScript truthiness of a nullable string: `null` and `""` are falsy. -/
def jsTruthy : Option String → Bool
  | none => false
  | some s => s != ""

/-- JavaScript `x || dflt` on a nullable string: the default is taken when
`x` is `null` or `""`. -/
def jsOrString (o : Option String) (dflt : String) : String :=
  match o with
  | none => dflt
  | some s => if s = "" then dflt else s

/-- One record of the rate-limit store: `{count, resetAt}`. -/
structure RateLimitEntry where
  count : Int
  resetAt : Int
deriving DecidableEq

/-- Configuration record `RateLimitConfig`: `maxRequests`, `windowSeconds`, optional `message`. -/
structure RateLimitConfig where
  maxRequests : Int
  windowSeconds : Int
  message : Option String := none
deriving DecidableEq

/-- Result of `checkRateLimit`: `{allowed, remaining, resetAt, error?}`. -/
structure RateLimitResult where
  allowed : Bool
  remaining : Int
  resetAt : Int
  error : Option String := none
deriving DecidableEq

/-- The module-level `rateLimitStore`, threaded explicitly: a mapping from
client key to entry. -/
def RateStore : Type := String → Option RateLimitEntry

/-- Assignment `rateLimitStore[identifier] = e`. -/
def updateStore (s : RateStore) (k : String) (e : RateLimitEntry) : RateStore :=
  fun k2 => if k2 = k then some e else s k2

/-- JavaScript `s.split(',')[0]`: the longest comma-free prefix of `s`
(`""` when `s` is empty, since `"".split(',')` is `[""]`). -/
def jsFirstSegment (s : String) : String :=
  String.mk (s.toList.takeWhile (fun c => c ≠ ','))

/-- JavaScript `s.trim()`: strips leading and trailing whitespace. -/
def jsTrim (s : String) : String :=
  String.mk (((s.toList.dropWhile Char.isWhitespace).reverse.dropWhile
    Char.isWhitespace).reverse)

/-- Function `getClientIdentifier` from `rateLimit.ts`: first `x-forwarded-for`
entry (split on comma, first element, trimmed) when that header is truthy,
else `x-real-ip` when truthy, else `user-agent || 'unknown'`. -/
def getClientIdentifier (request : Headers) : String :=
  let forwardedFor := request.xForwardedFor
  let realIp := request.xRealIp
  if jsTruthy forwardedFor then
    jsTrim (jsFirstSegment (forwardedFor.getD ""))
  else if jsTruthy realIp then
    realIp.getD ""
  else
    jsOrString request.userAgent "unknown"

/-- The default message used when `config.message` is falsy. -/
def defaultRateLimitMessage : String := "Too many requests. Please try again later."

/-- Function `checkRateLimit` from `rateLimit.ts`, with the mutable store and the
clock passed explicitly; returns the decision together with the updated
store.  When the key has no entry or the entry's `resetAt` is strictly in
the past, the entry is replaced by `{count := 1, resetAt := now + windowMs}`
and the request is allowed with `remaining = maxRequests - 1`; otherwise the
count is incremented and the request is allowed iff the new count is at most
`maxRequests`. -/
def checkRateLimit (request : Headers) (config : RateLimitConfig)
    (store : RateStore) (now : Int) : RateLimitResult × RateStore :=
  let identifier := getClientIdentifier request
  let windowMs := config.windowSeconds * 1000
  let freshEntry : RateLimitEntry := { count := 1, resetAt := now + windowMs }
  let freshOutcome : RateLimitResult × RateStore :=
    ({ allowed := true, remaining := config.maxRequests - 1,
       resetAt := freshEntry.resetAt, error := none },
     updateStore store identifier freshEntry)
  match store identifier with
  | none => freshOutcome
  | some entry =>
    if entry.resetAt < now then
      freshOutcome
    else
      let newCount := entry.count + 1
      let store2 := updateStore store identifier { count := newCount, resetAt := entry.resetAt }
      let remaining := max 0 (config.maxRequests - newCount)
      if newCount ≤ config.maxRequests then
        ({ allowed := true, remaining := remaining, resetAt := entry.resetAt, error := none },
         store2)
      else
        ({ allowed := false, remaining := 0, resetAt := entry.resetAt,
           error := some (jsOrString config.message defaultRateLimitMessage) }, store2)

/-- The five named limiter configurations of `RATE_LIMITS`. -/
structure RateLimits where
  login : RateLimitConfig
  contact : RateLimitConfig
  upload : RateLimitConfig
  api : RateLimitConfig
  publicRead : RateLimitConfig

/-- Constant `RATE_LIMITS` from `rateLimit.ts`. -/
def RATE_LIMITS : RateLimits :=
  { login := { maxRequests := 5, windowSeconds := 300,
               message := some "Too many login attempts. Please try again in 5 minutes." },
    contact := { maxRequests := 3, windowSeconds := 3600,
                 message := some "Too many contact form submissions. Please try again later." },
    upload := { maxRequests := 10, windowSeconds := 3600,
                message := some "Too many upload requests. Please try again later." },
    api := { maxRequests := 100, windowSeconds := 60,
             message := some "Too many requests. Please slow down." },
    publicRead := { maxRequests := 200, windowSeconds := 60,
                    message := some "Too many requests. Please slow down." } }

/-- The empty store (module load state). -/
def emptyStore : RateStore := fun _ => none

/-- Runs `checkRateLimit` on a sequence of request times for one client and
configuration, threading the store, and collects the decisions in order. -/
def runRequests (request : Headers) (config : RateLimitConfig) :
    RateStore → List Int → List RateLimitResult
  | _, [] => []
  | store, t :: ts =>
    let step := checkRateLimit request config store t
    step.1 :: runRequests request config step.2 ts

/-- The identity claim carried by a token: the domain fields
`{userId, username, email}` plus the `iat` and `exp` timestamps embedded at
issuance (`TokenPayload` extended with the registered JWT claims the code
sets).  Timestamps are in seconds, as JWT `NumericDate`. -/
structure Claim where
  userId : String
  username : String
  email : String
  iat : Int
  exp : Int
deriving DecidableEq

/-- Any input string handed to `verifyToken`: either it parses as a
compact signed token carrying a claim and a signature, or it is malformed. -/
inductive TokenString where
  | malformedTok (raw : String)
  | encoded (claim : Claim) (sig : Nat)
deriving DecidableEq

/-- The verification failures of the signing backend. -/
inductive JwtError where
  | malformedInput
  | badSignature
  | expired
deriving DecidableEq

/-- Modelled from the spec: stands in for the HMAC-SHA256 tag the external
`jose` library computes over the signing input with the shared secret; the
repository only calls the library, so the primitive itself is not in the
source.  Any fixed keyed function of the secret and the signed content
suffices for the properties claimed. -/
def hmacTag (secret : String) (c : Claim) : Nat :=
  ((secret ++ "." ++ c.userId ++ "." ++ c.username ++ "." ++ c.email).toList.foldl
    (fun a ch => a * 131 + ch.toNat) 7) * 961748941
    + c.iat.natAbs * 31 + c.exp.natAbs

/-- Modelled from the spec: the external `jose.jwtVerify` — parses the
token, checks the HMAC-SHA256 signature against the shared secret, checks
the expiry timestamp, and throws (as `Except.error`) on malformed input,
signature mismatch, or expiry; returns the embedded claim on success. -/
def jwtVerify (secret : String) (t : TokenString) (now : Int) : Except JwtError Claim :=
  match t with
  | .malformedTok _ => .error .malformedInput
  | .encoded c sig =>
    if sig ≠ hmacTag secret c then .error .badSignature
    else if c.exp < now then .error .expired
    else .ok c

/-- Function `generateToken`: signs the payload with HS256 under the shared secret,
setting `iat := now` and `exp := now + 24` hours (86400 seconds). -/
def generateToken (secret : String) (userId username email : String) (now : Int) : TokenString :=
  let claim : Claim := { userId := userId, username := username, email := email,
                         iat := now, exp := now + 86400 }
  .encoded claim (hmacTag secret claim)

/-- Function `verifyToken`: runs `jwtVerify` in a `try`/`catch` and returns `null`
(`none`) on any thrown verification error, the payload otherwise. -/
def verifyToken (secret : String) (t : TokenString) (now : Int) : Option Claim :=
  match jwtVerify secret t now with
  | .ok payload => some payload
  | .error _ => none

/-- A parser from the wire format back to `TokenString`; abstract here: any
function standing for how a header substring decodes.  `getTokenFromRequest`
and `requireAuth` are proved for every such decoder and every verifier, so
their claims do not depend on the wire format. -/
def VerifierFun : Type := String → Option Claim

/-- JavaScript `s.startsWith(pre)` (case-sensitive, exact characters). -/
def jsStartsWith (s pre : String) : Bool :=
  pre.toList.isPrefixOf s.toList

/-- JavaScript `s.substring(n)`: the characters of `s` from index `n` on. -/
def jsSubstringFrom (s : String) (n : Nat) : String :=
  String.mk (s.toList.drop n)

/-- Function `getTokenFromRequest`: reads the `authorization` header; when it is
absent (or empty, by JS truthiness) or does not start with the literal
`"Bearer "`, returns `null` without consulting the verifier; otherwise
strips the first 7 characters and hands the rest to the verifier. -/
def getTokenFromRequest (verify : VerifierFun) (request : Headers) : Option Claim :=
  let authHeader := request.authorization
  if !jsTruthy authHeader || !(jsStartsWith (authHeader.getD "") "Bearer ") then
    none
  else
    verify (jsSubstringFrom (authHeader.getD "") 7)

/-- Result shape of `requireAuth`: `{authorized, user?, error?}`. -/
structure AuthCheck where
  authorized : Bool
  user : Option Claim := none
  error : Option String := none
deriving DecidableEq

/-- Function `requireAuth`: runs `getTokenFromRequest` and maps a missing claim to
`{authorized := false, error := "Unauthorized - Invalid or missing token"}`,
a present claim to `{authorized := true, user}`. -/
def requireAuth (verify : VerifierFun) (request : Headers) : AuthCheck :=
  match getTokenFromRequest verify request with
  | none =>
    { authorized := false, error := some "Unauthorized - Invalid or missing token" }
  | some user =>
    { authorized := true, user := some user }

/-- The client-key rule exactly as the claim words it: the mere presence of
an `X-Forwarded-For` header selects its first comma segment trimmed; else a
present `X-Real-IP` is used as is; else a present `User-Agent` is used as
is; else `"unknown"`. -/
def claimedClientIdentifier (request : Headers) : String :=
  match request.xForwardedFor with
  | some s => jsTrim (jsFirstSegment s)
  | none =>
    match request.xRealIp with
    | some s => s
    | none =>
      match request.userAgent with
      | some s => s
      | none => "unknown"

/-- Amended fallback for `User-Agent`: used only when present and
non-empty, else `"unknown"`. -/
def amendedUserAgentKey (request : Headers) : String :=
  match request.userAgent with
  | some s => if s = "" then "unknown" else s
  | none => "unknown"

/-- Amended fallback for `X-Real-IP`: used only when present and
non-empty. -/
def amendedRealIpKey (request : Headers) : String :=
  match request.xRealIp with
  | some s => if s = "" then amendedUserAgentKey request else s
  | none => amendedUserAgentKey request

/-- The amended client-key rule: a header participates only when it is
present and non-empty (JavaScript truthiness), with the same priority
order. -/
def amendedClientIdentifier (request : Headers) : String :=
  match request.xForwardedFor with
  | some s => if s = "" then amendedRealIpKey request else jsTrim (jsFirstSegment s)
  | none => amendedRealIpKey request

/-- A concrete claim used by the token witnesses, matching the spec's
scenario `{subject "u1", name "Admin", contact "a@b.com"}` issued at 0. -/
def sampleClaim : Claim :=
  { userId := "u1", username := "Admin", email := "a@b.com", iat := 0, exp := 86400 }

/-- A verifier that accepts everything, used to witness that rejection in
`getTokenFromRequest` does not depend on the verifier. -/
def acceptAll : VerifierFun := fun _ => some sampleClaim

/-- A request from client IP `1.2.3.4` (via `X-Forwarded-For`). -/
def clientHeaders : Headers := { xForwardedFor := some "1.2.3.4" }

/-- The store after one `login`-limited request from `1.2.3.4` at time 0. -/
def storeAfterLogin : RateStore :=
  (checkRateLimit clientHeaders RATE_LIMITS.login emptyStore 0).2

/-- The decision the increment path produces for the `j`-th counted request
of a live window with reset timestamp `R`. -/
def steadyResult (config : RateLimitConfig) (R : Int) (j : Int) : RateLimitResult :=
  if j ≤ config.maxRequests then
    { allowed := true, remaining := max 0 (config.maxRequests - j), resetAt := R, error := none }
  else
    { allowed := false, remaining := 0, resetAt := R,
      error := some (jsOrString config.message defaultRateLimitMessage) }

lemma checkRateLimit_of_none (request : Headers) (config : RateLimitConfig)
    (store : RateStore) (now : Int)
    (hs : store (getClientIdentifier request) = none) :
    checkRateLimit request config store now =
      ({ allowed := true, remaining := config.maxRequests - 1,
         resetAt := now + config.windowSeconds * 1000, error := none },
       updateStore store (getClientIdentifier request)
         { count := 1, resetAt := now + config.windowSeconds * 1000 }) := by
  simp [checkRateLimit, hs]

lemma checkRateLimit_of_stale (request : Headers) (config : RateLimitConfig)
    (store : RateStore) (now : Int) (entry : RateLimitEntry)
    (hs : store (getClientIdentifier request) = some entry)
    (hold : entry.resetAt < now) :
    checkRateLimit request config store now =
      ({ allowed := true, remaining := config.maxRequests - 1,
         resetAt := now + config.windowSeconds * 1000, error := none },
       updateStore store (getClientIdentifier request)
         { count := 1, resetAt := now + config.windowSeconds * 1000 }) := by
  simp [checkRateLimit, hs, hold]

lemma checkRateLimit_of_live (request : Headers) (config : RateLimitConfig)
    (store : RateStore) (now : Int) (entry : RateLimitEntry)
    (hs : store (getClientIdentifier request) = some entry)
    (hlive : ¬ entry.resetAt < now) :
    checkRateLimit request config store now =
      ((if entry.count + 1 ≤ config.maxRequests then
          { allowed := true, remaining := max 0 (config.maxRequests - (entry.count + 1)),
            resetAt := entry.resetAt, error := none }
        else
          { allowed := false, remaining := 0, resetAt := entry.resetAt,
            error := some (jsOrString config.message defaultRateLimitMessage) }),
       updateStore store (getClientIdentifier request)
         { count := entry.count + 1, resetAt := entry.resetAt }) := by
  simp only [checkRateLimit, hs, hlive, if_false, if_neg hlive]
  split <;> rfl

lemma updateStore_same (s : RateStore) (k : String) (e : RateLimitEntry) :
    updateStore s k e k = some e := by
  simp [updateStore]

lemma updateStore_other (s : RateStore) (k k2 : String) (e : RateLimitEntry)
    (hne : k2 ≠ k) : updateStore s k e k2 = s k2 := by
  simp [updateStore, hne]

/-- C3: a stale entry (reset timestamp strictly in the past) is replaced by
`{count := 1, resetAt := now + window}` and the request is allowed with
`remaining = maxRequests - 1`, whatever the prior count was. -/
theorem checkRateLimit_reset_after_expiry (request : Headers)
    (config : RateLimitConfig) (store : RateStore) (now priorCount R : Int)
    (hs : store (getClientIdentifier request) = some { count := priorCount, resetAt := R })
    (hpast : R < now) :
    (checkRateLimit request config store now).1 =
      { allowed := true, remaining := config.maxRequests - 1,
        resetAt := now + config.windowSeconds * 1000, error := none } ∧
    (checkRateLimit request config store now).2 (getClientIdentifier request) =
      some { count := 1, resetAt := now + config.windowSeconds * 1000 } := by
  rw [checkRateLimit_of_stale request config store now _ hs hpast]
  exact ⟨rfl, updateStore_same _ _ _⟩

theorem checkRateLimit_reset_after_expiry_witness :
    (checkRateLimit { xForwardedFor := some "1.2.3.4" } RATE_LIMITS.login
        (updateStore emptyStore "1.2.3.4" { count := 999, resetAt := 5 }) 10).1 =
      { allowed := true, remaining := RATE_LIMITS.login.maxRequests - 1,
        resetAt := 10 + RATE_LIMITS.login.windowSeconds * 1000, error := none } :=
  (checkRateLimit_reset_after_expiry { xForwardedFor := some "1.2.3.4" }
    RATE_LIMITS.login _ 10 999 5 (by decide) (by decide)).1

/-- C10: whenever the client key has no live entry (no entry at all, or a
reset timestamp in the past), the request is allowed unconditionally and
`remaining = maxRequests - 1` without clamping, hence negative whenever
`maxRequests ≤ 0`. -/
theorem checkRateLimit_fresh_unclamped (request : Headers)
    (config : RateLimitConfig) (store : RateStore) (now : Int)
    (hdead : store (getClientIdentifier request) = none ∨
      ∃ e, store (getClientIdentifier request) = some e ∧ e.resetAt < now) :
    (checkRateLimit request config store now).1.allowed = true ∧
    (checkRateLimit request config store now).1.remaining = config.maxRequests - 1 ∧
    (config.maxRequests ≤ 0 →
      (checkRateLimit request config store now).1.remaining < 0) := by
  have hres : (checkRateLimit request config store now).1 =
      { allowed := true, remaining := config.maxRequests - 1,
        resetAt := now + config.windowSeconds * 1000, error := none } := by
    rcases hdead with hnone | ⟨e, he, hpast⟩
    · rw [checkRateLimit_of_none request config store now hnone]
    · rw [checkRateLimit_of_stale request config store now e he hpast]
  refine ⟨by rw [hres], by rw [hres], fun hle => ?_⟩
  rw [hres]
  simp only
  omega

theorem checkRateLimit_fresh_unclamped_witness :
    (checkRateLimit {} { maxRequests := 0, windowSeconds := 60 } emptyStore 0).1.allowed = true ∧
    (checkRateLimit {} { maxRequests := 0, windowSeconds := 60 } emptyStore 0).1.remaining =
      ({ maxRequests := 0, windowSeconds := 60 } : RateLimitConfig).maxRequests - 1 ∧
    (({ maxRequests := 0, windowSeconds := 60 } : RateLimitConfig).maxRequests ≤ 0 →
      (checkRateLimit {} { maxRequests := 0, windowSeconds := 60 } emptyStore 0).1.remaining < 0) :=
  checkRateLimit_fresh_unclamped {} { maxRequests := 0, windowSeconds := 60 }
    emptyStore 0 (Or.inl rfl)

/-- C9: `checkRateLimit` is a total function: on every request, configuration,
store and clock value it returns a structured decision whose `resetAt` is the
reset timestamp of the entry now stored for the client, with `error` absent
exactly on the allowed outcomes and the configured (or default) message with
`remaining = 0` on the denied outcome. -/
theorem checkRateLimit_total_structured (request : Headers)
    (config : RateLimitConfig) (store : RateStore) (now : Int) :
    ∃ r s2, checkRateLimit request config store now = (r, s2) ∧
      (∃ e, s2 (getClientIdentifier request) = some e ∧ r.resetAt = e.resetAt) ∧
      ((r.allowed = true ∧ r.error = none) ∨
       (r.allowed = false ∧ r.remaining = 0 ∧
         r.error = some (jsOrString config.message defaultRateLimitMessage))) := by
  rcases hst : store (getClientIdentifier request) with _ | entry
  · rw [checkRateLimit_of_none request config store now hst]
    exact ⟨_, _, rfl, ⟨_, updateStore_same _ _ _, rfl⟩, Or.inl ⟨rfl, rfl⟩⟩
  · by_cases hpast : entry.resetAt < now
    · rw [checkRateLimit_of_stale request config store now entry hst hpast]
      exact ⟨_, _, rfl, ⟨_, updateStore_same _ _ _, rfl⟩, Or.inl ⟨rfl, rfl⟩⟩
    · rw [checkRateLimit_of_live request config store now entry hst hpast]
      by_cases hcnt : entry.count + 1 ≤ config.maxRequests
      · rw [if_pos hcnt]
        exact ⟨_, _, rfl, ⟨_, updateStore_same _ _ _, rfl⟩, Or.inl ⟨rfl, rfl⟩⟩
      · rw [if_neg hcnt]
        exact ⟨_, _, rfl, ⟨_, updateStore_same _ _ _, rfl⟩, Or.inr ⟨rfl, rfl, rfl⟩⟩

/-- C4 counterexample: a request carrying an empty `X-Forwarded-For`
header and `X-Real-IP: 9.9.9.9`.  The claim says the key is the trimmed
first segment of the `X-Forwarded-For` value (the empty string); the code
skips the empty header and uses `"9.9.9.9"`. -/
theorem getClientIdentifier_claim_counterexample :
    getClientIdentifier { xForwardedFor := some "", xRealIp := some "9.9.9.9" } = "9.9.9.9" ∧
    claimedClientIdentifier { xForwardedFor := some "", xRealIp := some "9.9.9.9" } = "" ∧
    getClientIdentifier { xForwardedFor := some "", xRealIp := some "9.9.9.9" } ≠
      claimedClientIdentifier { xForwardedFor := some "", xRealIp := some "9.9.9.9" } := by
  refine ⟨by decide, by decide, by decide⟩

/-- C4 amended: the derivation follows the stated priority order with each
header considered only when present and non-empty; a present-but-empty
`X-Forwarded-For`, `X-Real-IP` or `User-Agent` falls through to the next
source. -/
theorem getClientIdentifier_amended (request : Headers) :
    getClientIdentifier request = amendedClientIdentifier request := by
  rcases request with ⟨xf, xr, ua, auth⟩
  rcases xf with _ | f <;> rcases xr with _ | r <;> rcases ua with _ | u <;>
    simp [getClientIdentifier, amendedClientIdentifier, amendedRealIpKey,
      amendedUserAgentKey, jsTruthy, jsOrString, bne_iff_ne] <;>
    by_cases hf : f = "" <;> simp [hf] <;>
    first
      | rfl
      | (by_cases hr : r = "" <;> simp [hr] <;>
          first
            | rfl
            | (by_cases hu : u = "" <;> simp [hu]))

/-- C5: `verifyToken` collapses every verification failure — malformed
input, a signature that is not the HMAC tag of the content (any altered
signature), or an expired token — to the same `none` result, and in general
maps every error thrown by the verification backend to that single value,
so a caller cannot tell the causes apart. -/
theorem verifyToken_uniform_failure (secret raw : String) (c : Claim)
    (sig : Nat) (now : Int) :
    verifyToken secret (TokenString.malformedTok raw) now = none ∧
    (sig ≠ hmacTag secret c → verifyToken secret (TokenString.encoded c sig) now = none) ∧
    (c.exp < now → verifyToken secret (TokenString.encoded c sig) now = none) ∧
    (∀ (t : TokenString) (e : JwtError), jwtVerify secret t now = Except.error e →
      verifyToken secret t now = none) := by
  refine ⟨rfl, fun hsig => ?_, fun hexp => ?_, fun t e he => ?_⟩
  · simp [verifyToken, jwtVerify, hsig]
  · by_cases hsig : sig = hmacTag secret c
    · simp [verifyToken, jwtVerify, hsig, hexp]
    · simp [verifyToken, jwtVerify, hsig]
  · unfold verifyToken
    rw [he]

set_option maxRecDepth 8192 in
theorem verifyToken_uniform_failure_witness :
    verifyToken "k" (TokenString.malformedTok "not-a-jwt") 0 = none ∧
    verifyToken "k" (TokenString.encoded sampleClaim 0) 0 = none ∧
    verifyToken "k" (TokenString.encoded sampleClaim (hmacTag "k" sampleClaim)) 86401 = none :=
  ⟨(verifyToken_uniform_failure "k" "not-a-jwt" sampleClaim 0 0).1,
   (verifyToken_uniform_failure "k" "not-a-jwt" sampleClaim 0 0).2.1 (by decide),
   (verifyToken_uniform_failure "k" "not-a-jwt" sampleClaim
      (hmacTag "k" sampleClaim) 86401).2.2.1 (by decide)⟩

/-- C6: `getTokenFromRequest` yields `none` when the `authorization`
header is absent or does not start with the exact prefix `"Bearer "`,
uniformly in the verifier (so verification is never consulted there); when
the header does start with that prefix it returns the verifier's answer on
the header with the first 7 characters removed. -/
theorem getTokenFromRequest_bearer (verify : VerifierFun) (request : Headers) :
    (request.authorization = none → getTokenFromRequest verify request = none) ∧
    (∀ a, request.authorization = some a → jsStartsWith a "Bearer " = false →
      getTokenFromRequest verify request = none) ∧
    (∀ a, request.authorization = some a → jsStartsWith a "Bearer " = true →
      getTokenFromRequest verify request = verify (jsSubstringFrom a 7)) := by
  refine ⟨fun hnone => ?_, fun a ha hpre => ?_, fun a ha hpre => ?_⟩
  · simp [getTokenFromRequest, hnone, jsTruthy]
  · simp [getTokenFromRequest, ha, hpre]
  · have hne : a ≠ "" := by
      rintro rfl
      simp [jsStartsWith, List.isPrefixOf] at hpre
    simp [getTokenFromRequest, ha, hpre, jsTruthy, hne]

theorem getTokenFromRequest_bearer_witness :
    getTokenFromRequest acceptAll {} = none ∧
    getTokenFromRequest acceptAll { authorization := some "bearer tok" } = none ∧
    getTokenFromRequest acceptAll { authorization := some "Bearer tok" } =
      acceptAll (jsSubstringFrom "Bearer tok" 7) :=
  ⟨(getTokenFromRequest_bearer acceptAll {}).1 rfl,
   (getTokenFromRequest_bearer acceptAll { authorization := some "bearer tok" }).2.1
      "bearer tok" rfl (by decide),
   (getTokenFromRequest_bearer acceptAll { authorization := some "Bearer tok" }).2.2
      "Bearer tok" rfl (by decide)⟩

/-- C7: `requireAuth` returns `{authorized := false}` with the fixed error
string `"Unauthorized - Invalid or missing token"` exactly when token
extraction and verification yield no claim, and `{authorized := true}`
carrying the claim otherwise. -/
theorem requireAuth_fixed_error (verify : VerifierFun) (request : Headers) :
    (getTokenFromRequest verify request = none →
      requireAuth verify request =
        { authorized := false, user := none,
          error := some "Unauthorized - Invalid or missing token" }) ∧
    (∀ u, getTokenFromRequest verify request = some u →
      requireAuth verify request = { authorized := true, user := some u, error := none }) := by
  refine ⟨fun hnone => ?_, fun u hu => ?_⟩
  · unfold requireAuth
    rw [hnone]
  · unfold requireAuth
    rw [hu]

theorem requireAuth_fixed_error_witness :
    requireAuth acceptAll {} =
      { authorized := false, user := none,
        error := some "Unauthorized - Invalid or missing token" } ∧
    requireAuth acceptAll { authorization := some "Bearer tok" } =
      { authorized := true, user := some sampleClaim, error := none } :=
  ⟨(requireAuth_fixed_error acceptAll {}).1 rfl,
   (requireAuth_fixed_error acceptAll { authorization := some "Bearer tok" }).2
      sampleClaim (by decide)⟩

/-- C8: round trip of the token service.  A token issued at `t0` carries
`iat = t0` and `exp = t0 + 86400` (24 hours); verifying it at any time
between issuance and expiry returns exactly the issued claim, and verifying
it strictly after the expiry timestamp returns no claim. -/
theorem token_round_trip (secret userId username email : String) (t0 now : Int) :
    (t0 ≤ now → now ≤ t0 + 86400 →
      verifyToken secret (generateToken secret userId username email t0) now =
        some { userId := userId, username := username, email := email,
               iat := t0, exp := t0 + 86400 }) ∧
    (t0 + 86400 < now →
      verifyToken secret (generateToken secret userId username email t0) now = none) := by
  constructor
  · intro h1 h2
    have hnl : ¬ (t0 + 86400 < now) := by omega
    simp [generateToken, verifyToken, jwtVerify, hnl]
  · intro h
    simp [generateToken, verifyToken, jwtVerify, h]

theorem token_round_trip_witness :
    verifyToken "k" (generateToken "k" "u1" "Admin" "a@b.com" 0) 86399 =
      some { userId := "u1", username := "Admin", email := "a@b.com",
             iat := 0, exp := 0 + 86400 } ∧
    verifyToken "k" (generateToken "k" "u1" "Admin" "a@b.com" 0) 86401 = none :=
  ⟨(token_round_trip "k" "u1" "Admin" "a@b.com" 0 86399).1 (by decide) (by decide),
   (token_round_trip "k" "u1" "Admin" "a@b.com" 0 86401).2 (by decide)⟩

/-- C1 counterexample: one login-limited call for client `1.2.3.4` changes
what a contact-limited call for the same client observes.  On the untouched
store the contact call is that client's first (`remaining = 2`, window reset
at `3600000`); after a single login call it sees the login call's count and
window (`remaining = 1`, reset at `300000`). -/
theorem checkRateLimit_cross_limiter_cex :
    (checkRateLimit clientHeaders RATE_LIMITS.contact emptyStore 0).1 =
      { allowed := true, remaining := 2, resetAt := 3600000, error := none } ∧
    (checkRateLimit clientHeaders RATE_LIMITS.contact storeAfterLogin 0).1 =
      { allowed := true, remaining := 1, resetAt := 300000, error := none } ∧
    (checkRateLimit clientHeaders RATE_LIMITS.contact storeAfterLogin 0).1 ≠
      (checkRateLimit clientHeaders RATE_LIMITS.contact emptyStore 0).1 :=
  ⟨by decide, by decide, by decide⟩

/-- C1 amended: all named limiters share the single store keyed only by the
client identifier.  A call under any configuration reads the store only at
`getClientIdentifier request` (stores agreeing there produce the same
decision and the same entry at that key) and writes only that key — the same
key whatever the configuration, so counters for one client are shared
across limiter configurations, not independent. -/
theorem checkRateLimit_shared_single_key (request : Headers)
    (config : RateLimitConfig) (s s2 : RateStore) (now : Int)
    (hagree : s (getClientIdentifier request) = s2 (getClientIdentifier request)) :
    (checkRateLimit request config s now).1 = (checkRateLimit request config s2 now).1 ∧
    (checkRateLimit request config s now).2 (getClientIdentifier request) =
      (checkRateLimit request config s2 now).2 (getClientIdentifier request) ∧
    (∀ k, k ≠ getClientIdentifier request →
      (checkRateLimit request config s now).2 k = s k) := by
  rcases hst : s (getClientIdentifier request) with _ | entry
  · have hst2 : s2 (getClientIdentifier request) = none := by rw [← hagree, hst]
    rw [checkRateLimit_of_none request config s now hst,
        checkRateLimit_of_none request config s2 now hst2]
    exact ⟨rfl, by simp [updateStore_same],
      fun k hk => updateStore_other _ _ _ _ hk⟩
  · have hst2 : s2 (getClientIdentifier request) = some entry := by rw [← hagree, hst]
    by_cases hpast : entry.resetAt < now
    · rw [checkRateLimit_of_stale request config s now entry hst hpast,
          checkRateLimit_of_stale request config s2 now entry hst2 hpast]
      exact ⟨rfl, by simp [updateStore_same],
        fun k hk => updateStore_other _ _ _ _ hk⟩
    · rw [checkRateLimit_of_live request config s now entry hst hpast,
          checkRateLimit_of_live request config s2 now entry hst2 hpast]
      exact ⟨rfl, by simp [updateStore_same],
        fun k hk => updateStore_other _ _ _ _ hk⟩

theorem checkRateLimit_shared_single_key_witness :
    (checkRateLimit clientHeaders RATE_LIMITS.contact storeAfterLogin 0).1 =
      (checkRateLimit clientHeaders RATE_LIMITS.contact
        (updateStore emptyStore "1.2.3.4" { count := 1, resetAt := 300000 }) 0).1 ∧
    (checkRateLimit clientHeaders RATE_LIMITS.contact storeAfterLogin 0).2
        (getClientIdentifier clientHeaders) =
      (checkRateLimit clientHeaders RATE_LIMITS.contact
        (updateStore emptyStore "1.2.3.4" { count := 1, resetAt := 300000 }) 0).2
        (getClientIdentifier clientHeaders) ∧
    (∀ k, k ≠ getClientIdentifier clientHeaders →
      (checkRateLimit clientHeaders RATE_LIMITS.contact storeAfterLogin 0).2 k =
        storeAfterLogin k) :=
  checkRateLimit_shared_single_key clientHeaders RATE_LIMITS.contact storeAfterLogin
    (updateStore emptyStore "1.2.3.4" { count := 1, resetAt := 300000 }) 0 (by decide)

lemma runRequests_live (request : Headers) (config : RateLimitConfig) (R : Int) :
    ∀ (ts : List Int) (s : RateStore) (k : Int),
      s (getClientIdentifier request) = some { count := k, resetAt := R } →
      (∀ t ∈ ts, t ≤ R) →
      runRequests request config s ts =
        (List.range ts.length).map
          (fun i : Nat => steadyResult config R (k + 1 + (i : Int))) := by
  intro ts
  induction ts with
  | nil => intro s k _ _; rfl
  | cons t ts ih =>
    intro s k hs ht
    have hlive : ¬ ({ count := k, resetAt := R } : RateLimitEntry).resetAt < t := by
      have := ht t (by simp)
      simp only
      omega
    have hstep := checkRateLimit_of_live request config s t _ hs hlive
    simp only [runRequests, hstep]
    have hs2 : (updateStore s (getClientIdentifier request)
        { count := k + 1, resetAt := R }) (getClientIdentifier request) =
        some { count := k + 1, resetAt := R } := updateStore_same _ _ _
    rw [ih _ (k + 1) hs2 (fun t2 ht2 => ht t2 (by simp [ht2]))]
    rw [List.length_cons, List.range_succ_eq_map, List.map_cons, List.map_map]
    congr 1
    · simp only [Nat.cast_zero, add_zero, steadyResult]
    · apply List.map_congr_left
      intro i _
      simp only [Function.comp_apply]
      congr 1
      push_cast
      ring

/-- C2: starting from no entry for the client, a run of `N + 1` requests all
inside the first request's window is allowed on requests `1 .. N`, with
`remaining` counting down `N - 1, N - 2, ..., 0`, and denied on request
`N + 1` with `remaining = 0` and the configured message. -/
theorem checkRateLimit_window_sequence (request : Headers)
    (config : RateLimitConfig) (s : RateStore) (msg : String) (N : Nat)
    (t0 : Int) (ts : List Int)
    (hN : 1 ≤ N) (hmax : config.maxRequests = (N : Int))
    (hmsg : config.message = some msg) (hmne : msg ≠ "")
    (hfresh : s (getClientIdentifier request) = none)
    (hlen : ts.length = N)
    (hin : ∀ t ∈ ts, t ≤ t0 + config.windowSeconds * 1000) :
    (∀ i : Nat, i < N →
      (runRequests request config s (t0 :: ts)).get? i =
        some { allowed := true, remaining := (N : Int) - ((i : Int) + 1),
               resetAt := t0 + config.windowSeconds * 1000, error := none }) ∧
    (runRequests request config s (t0 :: ts)).get? N =
      some { allowed := false, remaining := 0,
             resetAt := t0 + config.windowSeconds * 1000, error := some msg } := by
  have hs1 : (updateStore s (getClientIdentifier request)
      { count := 1, resetAt := t0 + config.windowSeconds * 1000 })
        (getClientIdentifier request) =
      some { count := 1, resetAt := t0 + config.windowSeconds * 1000 } :=
    updateStore_same _ _ _
  have hrun : runRequests request config s (t0 :: ts) =
      { allowed := true, remaining := config.maxRequests - 1,
        resetAt := t0 + config.windowSeconds * 1000, error := none } ::
      (List.range ts.length).map
        (fun i : Nat =>
          steadyResult config (t0 + config.windowSeconds * 1000) (1 + 1 + (i : Int))) := by
    simp only [runRequests, checkRateLimit_of_none request config s t0 hfresh]
    rw [runRequests_live request config (t0 + config.windowSeconds * 1000) ts _ 1 hs1 hin]
  constructor
  · intro i hi
    rcases Nat.eq_zero_or_pos i with rfl | hipos
    · rw [hrun]
      simp only [List.get?_cons_zero, hmax, Nat.cast_zero, Option.some.injEq]
      norm_num
    · obtain ⟨j, rfl⟩ : ∃ j, i = j + 1 := ⟨i - 1, by omega⟩
      rw [hrun, List.get?_cons_succ, List.get?_map]
      have hjlen : j < ts.length := by omega
      rw [List.get?_range hjlen]
      simp only [Option.map_some']
      unfold steadyResult
      have hle : (1 : Int) + 1 + (j : Int) ≤ config.maxRequests := by
        rw [hmax]
        push_cast at hi ⊢
        omega
      rw [if_pos hle]
      have hrem : max (0 : Int) (config.maxRequests - (1 + 1 + (j : Int))) =
          (N : Int) - (((j + 1 : Nat) : Int) + 1) := by
        rw [hmax, max_eq_right (by push_cast at hi ⊢; omega)]
        push_cast
        ring
      rw [hrem]
  · rw [hrun]
    obtain ⟨j, hNj⟩ : ∃ j, N = j + 1 := ⟨N - 1, by omega⟩
    rw [hNj, List.get?_cons_succ, List.get?_map]
    have hjlen : j < ts.length := by omega
    rw [List.get?_range hjlen]
    simp only [Option.map_some']
    unfold steadyResult
    have hgt : ¬ ((1 : Int) + 1 + (j : Int) ≤ config.maxRequests) := by
      rw [hmax, hNj]
      push_cast
      omega
    rw [if_neg hgt, hmsg]
    simp [jsOrString, hmne]

theorem checkRateLimit_window_sequence_witness :
    (∀ i : Nat, i < 5 →
      (runRequests clientHeaders RATE_LIMITS.login emptyStore
          (0 :: [0, 0, 0, 0, 10000])).get? i =
        some { allowed := true, remaining := ((5 : Nat) : Int) - ((i : Int) + 1),
               resetAt := 0 + RATE_LIMITS.login.windowSeconds * 1000, error := none }) ∧
    (runRequests clientHeaders RATE_LIMITS.login emptyStore
        (0 :: [0, 0, 0, 0, 10000])).get? 5 =
      some { allowed := false, remaining := 0,
             resetAt := 0 + RATE_LIMITS.login.windowSeconds * 1000,
             error := some "Too many login attempts. Please try again in 5 minutes." } :=
  checkRateLimit_window_sequence clientHeaders RATE_LIMITS.login emptyStore
    "Too many login attempts. Please try again in 5 minutes." 5 0 [0, 0, 0, 0, 10000]
    (by decide) rfl rfl (by decide) rfl rfl (by decide)
